import Mathlib

/-!
Verification of the haiblock-python-sdk client library against its
natural-language specification.

The development shallowly embeds the SDK (src/haiblock/client.py,
src/haiblock/models.py, src/haiblock/exceptions.py) in Lean:

* JSON values are the inductive `Json`; Python dicts of JSON values are
  association lists `List (String × Json)` (keys are unique in payloads
  produced by the json module, so first-match lookup is faithful there).
* Python numbers are `Int` for int-typed fields and `Rat` for float-typed
  fields; valid JSON has no NaN or infinity, so `Rat` represents every
  number a valid payload can carry without floating-point concerns.
* An HTTP exchange is modelled by the response the environment returns for
  the issued request: `Option HttpResponse`, `none` standing for a
  network-level failure (requests.exceptions.ConnectionError and kin)
  in which no response was received.
* Exceptions are the inductive `PyError`; fallible Python code is embedded
  as functions into `Except PyError`.
* Pydantic v1 construction `Model(**data)` is embedded as an explicit
  decoder per model that checks required fields for presence and type and
  Optional fields for type, returning `PyError.validationError` on
  mismatch. Pydantic's lenient cross-type coercions (numeric strings to
  int, numbers to str, bool to int) are not modelled; each field accepts
  exactly the JSON shapes of its annotation, with `null` and absence
  accepted for Optional fields and int accepted for float fields.
-/

/-- JSON value, as produced by response.json(): null, booleans, numbers
(integral ones kept as `int`, the rest as `rat`), strings, arrays and
objects (association lists of fields). -/
inductive Json where
  | null : Json
  | bool (b : Bool) : Json
  | int (n : Int) : Json
  | rat (q : Rat) : Json
  | str (s : String) : Json
  | arr (elems : List Json) : Json
  | obj (fields : List (String × Json)) : Json
deriving Repr

/-- HTTP response as seen by the requests library: status code, raw body
text, the body parsed as JSON when it is valid JSON (`none` otherwise),
and the reason phrase and final URL that requests embeds in the message
of the HTTPError raised by raise_for_status. -/
structure HttpResponse where
  status_code : Nat
  body : String
  jsonBody : Option Json
  reason : String
  url : String
deriving Repr

/-- Exceptions the SDK paths can raise. `authenticationError`,
`contentNotFoundError` and `apiError` come from src/haiblock/exceptions.py
(`apiError` keeps its `status_code` and `response` attributes);
`validationError` is the pydantic ValidationError raised by model
construction; `fileNotFoundError` is the Python builtin raised by
upload_file; `requestException` is an uncaught requests-level exception;
`jsonDecodeError` is an uncaught requests JSONDecodeError; `typeError`
is the Python TypeError raised when `**data` unpacks a non-mapping;
`attributeError` is the Python AttributeError raised when `.get` is
called on a decoded body that is not a dict. -/
inductive PyError where
  | authenticationError (msg : String) : PyError
  | contentNotFoundError (msg : String) : PyError
  | apiError (msg : String) (status_code : Option Nat) (response : Option HttpResponse) : PyError
  | validationError : PyError
  | fileNotFoundError (msg : String) : PyError
  | requestException (msg : String) : PyError
  | jsonDecodeError : PyError
  | typeError : PyError
  | attributeError : PyError
deriving Repr

/-- Message of the HTTPError that requests.raise_for_status raises for a
4xx or 5xx status: built from the status code, the reason phrase and the
URL. The response body does not appear in it (requests keeps the body
only on the attached response object). -/
def httpErrorMessage (status_code : Nat) (reason url : String) : String :=
  toString status_code ++
    (if status_code < 500 then " Client Error: " else " Server Error: ") ++
    reason ++ " for url: " ++ url

/-- Message placeholder for a network-level requests exception; the
concrete text varies with the failure and never matters to the SDK. -/
def connectionErrorMessage : String := "connection error"

/-- Message placeholder for the requests JSONDecodeError raised by
response.json() on a body that is not valid JSON. -/
def jsonDecodeErrorMessage : String := "body is not valid JSON"

/-- Embeds HaiBlockClient._make_request (src/haiblock/client.py lines
38-54). URL construction does not affect response handling, so the
function takes the exchange outcome directly. raise_for_status raises
HTTPError exactly for statuses 400-599; 401 becomes AuthenticationError,
404 becomes ContentNotFoundError, and any other such status becomes
APIError with the HTTPError text, the status code and the response.
A network-level failure, and likewise the JSONDecodeError that
response.json() raises on a 2xx body that is not valid JSON (a
RequestException subclass in requests since 2.27), is caught by the
RequestException handler and becomes APIError with no status code. -/
def make_request (resp : Option HttpResponse) : Except PyError Json :=
  match resp with
  | none =>
      .error (.apiError ("Request failed: " ++ connectionErrorMessage) none none)
  | some r =>
      if 400 ≤ r.status_code ∧ r.status_code < 600 then
        if r.status_code = 401 then
          .error (.authenticationError "Invalid or expired authentication token")
        else if r.status_code = 404 then
          .error (.contentNotFoundError "Requested resource not found")
        else
          .error (.apiError
            ("API request failed: " ++ httpErrorMessage r.status_code r.reason r.url)
            (some r.status_code) (some r))
      else
        match r.jsonBody with
        | some j => .ok j
        | none =>
            .error (.apiError ("Request failed: " ++ jsonDecodeErrorMessage) none none)

/-- Python truthiness test for an optional string: None and the empty
string are falsy. -/
def pyFalsy : Option String → Bool
  | none => true
  | some s => s.isEmpty

/-- Python `a or b` on optional strings: yields `b` when `a` is None or
empty, `a` otherwise. -/
def pyOr (a b : Option String) : Option String :=
  if pyFalsy a then b else a

/-- Constructed HaiBlockClient state: base URL and bearer token, fixed at
construction (src/haiblock/client.py lines 25-36). -/
structure HaiBlockClient where
  api_url : String
  auth_token : String
deriving Repr

/-- Embeds HaiBlockClient.__init__ (src/haiblock/client.py lines 17-36).
Arguments are the explicit constructor arguments followed by the values of
the HAIBLOCK_API_URL and HAIBLOCK_AUTH_TOKEN environment variables
(`none` when unset; os.getenv returns the set value even when empty).
`api_url or os.getenv(..., default)` and `auth_token or os.getenv(...)`
follow Python or-semantics, so empty strings fall through; a falsy token
raises AuthenticationError. The constructor performs no network call,
which is why no exchange outcome appears among its inputs. -/
def clientInit (api_url auth_token env_api_url env_auth_token : Option String) :
    Except PyError HaiBlockClient :=
  let url := pyOr api_url (some (env_api_url.getD "https://api.haiblock.com"))
  let token := pyOr auth_token env_auth_token
  if pyFalsy token then
    .error (.authenticationError
      "Auth token is required. Set HAIBLOCK_AUTH_TOKEN environment variable or pass auth_token parameter.")
  else
    .ok { api_url := url.getD "", auth_token := token.getD "" }

/-- Embeds the URL building of _make_request line 40:
api_url plus slash plus the endpoint with leading slashes stripped. -/
def request_url (api_url endpoint : String) : String :=
  api_url ++ "/" ++ endpoint.dropWhile (· == '/')

/-- First-match lookup of a key in a decoded JSON object, as Python
dict.get on the dict produced by the json module. -/
def getField (o : List (String × Json)) (k : String) : Option Json :=
  match o.find? (fun p => p.fst == k) with
  | some p => some p.snd
  | none => none

/-- Required str field: present string value, else ValidationError. -/
def reqStr (o : List (String × Json)) (k : String) : Except PyError String :=
  match getField o k with
  | some (Json.str s) => .ok s
  | _ => .error .validationError

/-- Required int field: present integral value, else ValidationError. -/
def reqInt (o : List (String × Json)) (k : String) : Except PyError Int :=
  match getField o k with
  | some (Json.int n) => .ok n
  | _ => .error .validationError

/-- Required bool field: present boolean value, else ValidationError. -/
def reqBool (o : List (String × Json)) (k : String) : Except PyError Bool :=
  match getField o k with
  | some (Json.bool b) => .ok b
  | _ => .error .validationError

/-- Required float field: a number (pydantic accepts int for float),
else ValidationError. -/
def reqFloat (o : List (String × Json)) (k : String) : Except PyError Rat :=
  match getField o k with
  | some (Json.rat q) => .ok q
  | some (Json.int n) => .ok (n : Rat)
  | _ => .error .validationError

/-- Optional str field: absent or null decodes to none. -/
def optStr (o : List (String × Json)) (k : String) : Except PyError (Option String) :=
  match getField o k with
  | none => .ok none
  | some Json.null => .ok none
  | some (Json.str s) => .ok (some s)
  | some _ => .error .validationError

/-- Optional int field: absent or null decodes to none. -/
def optInt (o : List (String × Json)) (k : String) : Except PyError (Option Int) :=
  match getField o k with
  | none => .ok none
  | some Json.null => .ok none
  | some (Json.int n) => .ok (some n)
  | some _ => .error .validationError

/-- Optional float field: absent or null decodes to none. -/
def optFloat (o : List (String × Json)) (k : String) : Except PyError (Option Rat) :=
  match getField o k with
  | none => .ok none
  | some Json.null => .ok none
  | some (Json.rat q) => .ok (some q)
  | some (Json.int n) => .ok (some (n : Rat))
  | some _ => .error .validationError

/-- Decodes one entry of a Dict[str, bool] value. -/
def decBoolEntry : String × Json → Except PyError (String × Bool)
  | (k, Json.bool b) => .ok (k, b)
  | _ => .error .validationError

/-- Decodes one entry of a Dict[str, int] value. -/
def decIntEntry : String × Json → Except PyError (String × Int)
  | (k, Json.int n) => .ok (k, n)
  | _ => .error .validationError

/-- Decodes one element of a List[str] value. -/
def decStrElem : Json → Except PyError String
  | Json.str s => .ok s
  | _ => .error .validationError

/-- Decodes one element of a List[Dict[str, Any]] value. -/
def decObjElem : Json → Except PyError (List (String × Json))
  | Json.obj m => .ok m
  | _ => .error .validationError

/-- Required Dict[str, Any] field. -/
def reqObj (o : List (String × Json)) (k : String) :
    Except PyError (List (String × Json)) :=
  match getField o k with
  | some (Json.obj m) => .ok m
  | _ => .error .validationError

/-- Optional Dict[str, Any] field: absent or null decodes to none. -/
def optObj (o : List (String × Json)) (k : String) :
    Except PyError (Option (List (String × Json))) :=
  match getField o k with
  | none => .ok none
  | some Json.null => .ok none
  | some (Json.obj m) => .ok (some m)
  | some _ => .error .validationError

/-- Optional Dict[str, bool] field: every value must be boolean. -/
def optBoolMap (o : List (String × Json)) (k : String) :
    Except PyError (Option (List (String × Bool))) :=
  match getField o k with
  | none => .ok none
  | some Json.null => .ok none
  | some (Json.obj m) => (m.mapM decBoolEntry).map some
  | some _ => .error .validationError

/-- Required Dict[str, int] field: every value must be integral. -/
def reqIntMap (o : List (String × Json)) (k : String) :
    Except PyError (List (String × Int)) :=
  match getField o k with
  | some (Json.obj m) => m.mapM decIntEntry
  | _ => .error .validationError

/-- Optional List[str] field: absent or null decodes to none. -/
def optStrList (o : List (String × Json)) (k : String) :
    Except PyError (Option (List String)) :=
  match getField o k with
  | none => .ok none
  | some Json.null => .ok none
  | some (Json.arr xs) => (xs.mapM decStrElem).map some
  | some _ => .error .validationError

/-- Required List[Dict[str, Any]] field: every element must be an
object. -/
def reqObjList (o : List (String × Json)) (k : String) :
    Except PyError (List (List (String × Json))) :=
  match getField o k with
  | some (Json.arr xs) => xs.mapM decObjElem
  | _ => .error .validationError

/-- Optional List[Dict[str, Any]] field: absent or null decodes to
none. -/
def optObjList (o : List (String × Json)) (k : String) :
    Except PyError (Option (List (List (String × Json)))) :=
  match getField o k with
  | none => .ok none
  | some Json.null => .ok none
  | some (Json.arr xs) => (xs.mapM decObjElem).map some
  | some _ => .error .validationError

/-- Content model (src/haiblock/models.py lines 10-26). The status field
is annotated `str` with only a comment listing the intended values, so it
carries an arbitrary string. -/
structure Content where
  id : String
  user_id : String
  filename : String
  original_text : String
  transformed_text : Option String
  upload_date : String
  last_updated : String
  status : String
  file_size : Int
  file_type : String
  s3_key : String
  upload_metadata : Option (List (String × Json))
  validation_checks : Option (List (String × Bool))
  upload_completed : Option String
  actual_file_size : Option Int
deriving Repr

/-- Submission model (src/haiblock/models.py lines 29-38); status again
is a plain string. -/
structure Submission where
  id : String
  content_id : String
  provider : String
  status : String
  submitted_at : String
  response_data : Option (List (String × Json))
  cost_estimate : Option Rat
  error_message : Option String
deriving Repr

/-- TransformationResult model (src/haiblock/models.py lines 41-48). -/
structure TransformationResult where
  success : Bool
  transformed_text : Option String
  chunks : Option (List String)
  company_info : Option (List (String × Json))
  faqs : Option (List (List (String × Json)))
  error : Option String
deriving Repr

/-- AnalyticsData model (src/haiblock/models.py lines 51-63). -/
structure AnalyticsData where
  total_content : Int
  total_submissions : Int
  successful_submissions : Int
  failed_submissions : Int
  total_costs : Rat
  recent_activity : List (List (String × Json))
  content_status_breakdown : List (String × Int)
  submission_provider_breakdown : List (String × Int)
  monthly_trends : List (String × Json)
  average_cost_per_submission : Rat
  success_rate : Rat
deriving Repr

/-- Embeds pydantic construction Content(**data): each declared field is
checked for presence and shape; failure anywhere is ValidationError. -/
def decodeContent (o : List (String × Json)) : Except PyError Content := do
  let id ← reqStr o "id"
  let user_id ← reqStr o "user_id"
  let filename ← reqStr o "filename"
  let original_text ← reqStr o "original_text"
  let transformed_text ← optStr o "transformed_text"
  let upload_date ← reqStr o "upload_date"
  let last_updated ← reqStr o "last_updated"
  let status ← reqStr o "status"
  let file_size ← reqInt o "file_size"
  let file_type ← reqStr o "file_type"
  let s3_key ← reqStr o "s3_key"
  let upload_metadata ← optObj o "upload_metadata"
  let validation_checks ← optBoolMap o "validation_checks"
  let upload_completed ← optStr o "upload_completed"
  let actual_file_size ← optInt o "actual_file_size"
  return { id, user_id, filename, original_text, transformed_text,
           upload_date, last_updated, status, file_size, file_type, s3_key,
           upload_metadata, validation_checks, upload_completed,
           actual_file_size }

/-- Embeds pydantic construction Submission(**data). -/
def decodeSubmission (o : List (String × Json)) : Except PyError Submission := do
  let id ← reqStr o "id"
  let content_id ← reqStr o "content_id"
  let provider ← reqStr o "provider"
  let status ← reqStr o "status"
  let submitted_at ← reqStr o "submitted_at"
  let response_data ← optObj o "response_data"
  let cost_estimate ← optFloat o "cost_estimate"
  let error_message ← optStr o "error_message"
  return { id, content_id, provider, status, submitted_at, response_data,
           cost_estimate, error_message }

/-- Embeds pydantic construction TransformationResult(**data). -/
def decodeTransformationResult (o : List (String × Json)) :
    Except PyError TransformationResult := do
  let success ← reqBool o "success"
  let transformed_text ← optStr o "transformed_text"
  let chunks ← optStrList o "chunks"
  let company_info ← optObj o "company_info"
  let faqs ← optObjList o "faqs"
  let error ← optStr o "error"
  return { success, transformed_text, chunks, company_info, faqs, error }

/-- Embeds pydantic construction AnalyticsData(**data). -/
def decodeAnalyticsData (o : List (String × Json)) :
    Except PyError AnalyticsData := do
  let total_content ← reqInt o "total_content"
  let total_submissions ← reqInt o "total_submissions"
  let successful_submissions ← reqInt o "successful_submissions"
  let failed_submissions ← reqInt o "failed_submissions"
  let total_costs ← reqFloat o "total_costs"
  let recent_activity ← reqObjList o "recent_activity"
  let content_status_breakdown ← reqIntMap o "content_status_breakdown"
  let submission_provider_breakdown ← reqIntMap o "submission_provider_breakdown"
  let monthly_trends ← reqObj o "monthly_trends"
  let average_cost_per_submission ← reqFloat o "average_cost_per_submission"
  let success_rate ← reqFloat o "success_rate"
  return { total_content, total_submissions, successful_submissions,
           failed_submissions, total_costs, recent_activity,
           content_status_breakdown, submission_provider_breakdown,
           monthly_trends, average_cost_per_submission, success_rate }

/-- Serialization of an optional string field, as pydantic .dict(): None
becomes null. -/
def encOptStr : Option String → Json
  | none => Json.null
  | some s => Json.str s

/-- Serialization of an optional int field. -/
def encOptInt : Option Int → Json
  | none => Json.null
  | some n => Json.int n

/-- Serialization of an optional float field. -/
def encOptFloat : Option Rat → Json
  | none => Json.null
  | some q => Json.rat q

/-- Serialization of an optional Dict[str, Any] field. -/
def encOptObj : Option (List (String × Json)) → Json
  | none => Json.null
  | some m => Json.obj m

/-- Serialization of an optional Dict[str, bool] field. -/
def encOptBoolMap : Option (List (String × Bool)) → Json
  | none => Json.null
  | some m => Json.obj (m.map (fun p => (p.fst, Json.bool p.snd)))

/-- Serialization of a Dict[str, int] field. -/
def encIntMap (m : List (String × Int)) : Json :=
  Json.obj (m.map (fun p => (p.fst, Json.int p.snd)))

/-- Serialization of an optional List[str] field. -/
def encOptStrList : Option (List String) → Json
  | none => Json.null
  | some xs => Json.arr (xs.map Json.str)

/-- Serialization of a List[Dict[str, Any]] field. -/
def encObjList (xs : List (List (String × Json))) : Json :=
  Json.arr (xs.map Json.obj)

/-- Serialization of an optional List[Dict[str, Any]] field. -/
def encOptObjList : Option (List (List (String × Json))) → Json
  | none => Json.null
  | some xs => Json.arr (xs.map Json.obj)

/-- Serialization of a Content, as pydantic .dict() then json encoding:
every declared field appears, None as null. -/
def encodeContent (c : Content) : List (String × Json) :=
  [("id", Json.str c.id),
   ("user_id", Json.str c.user_id),
   ("filename", Json.str c.filename),
   ("original_text", Json.str c.original_text),
   ("transformed_text", encOptStr c.transformed_text),
   ("upload_date", Json.str c.upload_date),
   ("last_updated", Json.str c.last_updated),
   ("status", Json.str c.status),
   ("file_size", Json.int c.file_size),
   ("file_type", Json.str c.file_type),
   ("s3_key", Json.str c.s3_key),
   ("upload_metadata", encOptObj c.upload_metadata),
   ("validation_checks", encOptBoolMap c.validation_checks),
   ("upload_completed", encOptStr c.upload_completed),
   ("actual_file_size", encOptInt c.actual_file_size)]

/-- Serialization of a Submission. -/
def encodeSubmission (s : Submission) : List (String × Json) :=
  [("id", Json.str s.id),
   ("content_id", Json.str s.content_id),
   ("provider", Json.str s.provider),
   ("status", Json.str s.status),
   ("submitted_at", Json.str s.submitted_at),
   ("response_data", encOptObj s.response_data),
   ("cost_estimate", encOptFloat s.cost_estimate),
   ("error_message", encOptStr s.error_message)]

/-- Serialization of a TransformationResult. -/
def encodeTransformationResult (t : TransformationResult) :
    List (String × Json) :=
  [("success", Json.bool t.success),
   ("transformed_text", encOptStr t.transformed_text),
   ("chunks", encOptStrList t.chunks),
   ("company_info", encOptObj t.company_info),
   ("faqs", encOptObjList t.faqs),
   ("error", encOptStr t.error)]

/-- Serialization of an AnalyticsData. -/
def encodeAnalyticsData (a : AnalyticsData) : List (String × Json) :=
  [("total_content", Json.int a.total_content),
   ("total_submissions", Json.int a.total_submissions),
   ("successful_submissions", Json.int a.successful_submissions),
   ("failed_submissions", Json.int a.failed_submissions),
   ("total_costs", Json.rat a.total_costs),
   ("recent_activity", encObjList a.recent_activity),
   ("content_status_breakdown", encIntMap a.content_status_breakdown),
   ("submission_provider_breakdown", encIntMap a.submission_provider_breakdown),
   ("monthly_trends", Json.obj a.monthly_trends),
   ("average_cost_per_submission", Json.rat a.average_cost_per_submission),
   ("success_rate", Json.rat a.success_rate)]

/-- Applies `Model(**data)` to a decoded response body: the body must be
a JSON object for keyword unpacking; otherwise Python raises TypeError. -/
def decodeAs {α : Type} (dec : List (String × Json) → Except PyError α)
    (j : Json) : Except PyError α :=
  match j with
  | Json.obj fields => dec fields
  | _ => .error .typeError

/-- Embeds HaiBlockClient.get_content (src/haiblock/client.py lines
91-102): one GET through _make_request, then Content(**data). The content
id shapes only the endpoint path, not the response handling. -/
def get_content (resp : Option HttpResponse) : Except PyError Content :=
  (make_request resp).bind (decodeAs decodeContent)

/-- Embeds HaiBlockClient.list_content (src/haiblock/client.py lines
104-117): one GET through _make_request with limit and offset as query
parameters, then data.get with default [] and Content(**item) per
element. A missing items key yields the empty list; a non-list items
value would fault in Python when iterated (modelled as TypeError). -/
def list_content (resp : Option HttpResponse) : Except PyError (List Content) :=
  (make_request resp).bind fun data =>
    match data with
    | Json.obj fields =>
        match getField fields "items" with
        | none => .ok []
        | some (Json.arr items) => items.mapM (decodeAs decodeContent)
        | some _ => .error .typeError
    | _ => .error .attributeError

/-- Embeds HaiBlockClient.transform_content (src/haiblock/client.py lines
119-130): one POST through _make_request, then
TransformationResult(**data). -/
def transform_content (resp : Option HttpResponse) :
    Except PyError TransformationResult :=
  (make_request resp).bind (decodeAs decodeTransformationResult)

/-- Embeds HaiBlockClient.submit_to_model (src/haiblock/client.py lines
132-144): one POST through _make_request, then Submission(**data). The
provider argument shapes only the endpoint path. -/
def submit_to_model (resp : Option HttpResponse) : Except PyError Submission :=
  (make_request resp).bind (decodeAs decodeSubmission)

/-- Embeds HaiBlockClient.get_submission (src/haiblock/client.py lines
146-157). -/
def get_submission (resp : Option HttpResponse) : Except PyError Submission :=
  (make_request resp).bind (decodeAs decodeSubmission)

/-- Embeds HaiBlockClient.list_submissions (src/haiblock/client.py lines
159-176): same response handling as list_content with Submission
elements; the optional content_id filter shapes only the query string. -/
def list_submissions (resp : Option HttpResponse) :
    Except PyError (List Submission) :=
  (make_request resp).bind fun data =>
    match data with
    | Json.obj fields =>
        match getField fields "items" with
        | none => .ok []
        | some (Json.arr items) => items.mapM (decodeAs decodeSubmission)
        | some _ => .error .typeError
    | _ => .error .attributeError

/-- Embeds HaiBlockClient.get_analytics (src/haiblock/client.py lines
178-186). -/
def get_analytics (resp : Option HttpResponse) : Except PyError AnalyticsData :=
  (make_request resp).bind (decodeAs decodeAnalyticsData)

/-- Embeds HaiBlockClient.delete_content (src/haiblock/client.py lines
188-199): one DELETE through _make_request, whose decoded value is
discarded; every non-raising path returns True. -/
def delete_content (resp : Option HttpResponse) : Except PyError Bool :=
  (make_request resp).map (fun _ => true)

/-- Form metadata upload_file sends: the line
`data = ... if metadata else ...` keeps the metadata mapping only when it
is truthy, so None and the empty dict both send an empty form. -/
def formMetadata : Option (List (String × Json)) → Option (List (String × Json))
  | none => none
  | some m => if m.isEmpty then none else some m

/-- Multipart POST issued by upload_file: target URL, file part (name and
bytes read from the local file), form metadata (omitted when the metadata
argument is falsy), and whether a JSON content-type header is attached
(upload_file strips it from the session headers). -/
structure UploadRequest where
  url : String
  fileName : String
  fileContent : String
  dataMetadata : Option (List (String × Json))
  hasJsonContentType : Bool
deriving Repr

/-- Outcome of upload_file: the returned value or raised exception, and
the network request it issued, `none` when it raised before any network
call. -/
structure UploadOutcome where
  result : Except PyError Content
  request : Option UploadRequest
deriving Repr

/-- os.path.basename for slash-separated paths: the part after the last
slash. -/
def basename (path : String) : String :=
  (path.splitOn "/").getLastD ""

/-- Looks a path up in the local filesystem, modelled as an association
list from existing paths to their byte contents. -/
def readFileQ (fs : List (String × String)) (path : String) : Option String :=
  match fs.find? (fun p => p.fst == path) with
  | some p => some p.snd
  | none => none

/-- Embeds HaiBlockClient.upload_file (src/haiblock/client.py lines
56-89). A missing path raises FileNotFoundError before any network call.
Otherwise the file content is posted as multipart form data to
api_url/upload with the JSON content-type header removed, bypassing
_make_request: a network-level failure propagates as the raw requests
exception, any status other than 200 raises APIError with a message
embedding the response body text, and a 200 response is parsed as JSON
(JSONDecodeError propagating raw) and decoded by Content(**data). -/
def upload_file (c : HaiBlockClient) (fs : List (String × String))
    (file_path : String) (metadata : Option (List (String × Json)))
    (resp : Option HttpResponse) : UploadOutcome :=
  match readFileQ fs file_path with
  | none =>
      { result := .error (.fileNotFoundError ("File not found: " ++ file_path)),
        request := none }
  | some bytes =>
      let req : UploadRequest :=
        { url := c.api_url ++ "/upload",
          fileName := basename file_path,
          fileContent := bytes,
          dataMetadata := formMetadata metadata,
          hasJsonContentType := false }
      match resp with
      | none =>
          { result := .error (.requestException connectionErrorMessage),
            request := some req }
      | some r =>
          if r.status_code ≠ 200 then
            { result := .error (.apiError ("Upload failed: " ++ r.body)
                (some r.status_code) (some r)),
              request := some req }
          else
            match r.jsonBody with
            | none => { result := .error .jsonDecodeError, request := some req }
            | some j => { result := decodeAs decodeContent j, request := some req }

/-- Character-list prefix test, structurally recursive. -/
def charPrefix : List Char → List Char → Bool
  | [], _ => true
  | _ :: _, [] => false
  | a :: as, b :: bs => a == b && charPrefix as bs

/-- Character-list contiguous-occurrence test. -/
def charOccurs (pat : List Char) : List Char → Bool
  | [] => pat.isEmpty
  | b :: bs => charPrefix pat (b :: bs) || charOccurs pat bs

/-- Substring test: true exactly when pat occurs contiguously in s. -/
def containsSubstr (s pat : String) : Bool :=
  charOccurs pat.data s.data

/-- Content payload fixture with a chosen status value; the other fields
are those of the repository test test_get_content_success. -/
def contentPayload (status : String) : List (String × Json) :=
  [("id", Json.str "test-content-id"),
   ("user_id", Json.str "user-123"),
   ("filename", Json.str "test.txt"),
   ("original_text", Json.str "test content"),
   ("upload_date", Json.str "2025-01-01T00:00:00Z"),
   ("last_updated", Json.str "2025-01-01T00:00:00Z"),
   ("status", Json.str status),
   ("file_size", Json.int 1000),
   ("file_type", Json.str "text/plain"),
   ("s3_key", Json.str "uploads/test.txt")]

/-- The Content value the fixture payload decodes to. -/
def contentOf (status : String) : Content :=
  { id := "test-content-id", user_id := "user-123", filename := "test.txt",
    original_text := "test content", transformed_text := none,
    upload_date := "2025-01-01T00:00:00Z",
    last_updated := "2025-01-01T00:00:00Z", status := status,
    file_size := 1000, file_type := "text/plain",
    s3_key := "uploads/test.txt", upload_metadata := none,
    validation_checks := none, upload_completed := none,
    actual_file_size := none }

/-- Submission payload fixture with a chosen status value; the other
fields are those of the repository test test_submit_to_bedrock_success. -/
def submissionPayload (status : String) : List (String × Json) :=
  [("id", Json.str "submission-123"),
   ("content_id", Json.str "test-content-id"),
   ("provider", Json.str "bedrock"),
   ("status", Json.str status),
   ("submitted_at", Json.str "2025-01-01T00:00:00Z")]

/-- The Submission value the fixture payload decodes to. -/
def submissionOf (status : String) : Submission :=
  { id := "submission-123", content_id := "test-content-id",
    provider := "bedrock", status := status,
    submitted_at := "2025-01-01T00:00:00Z", response_data := none,
    cost_estimate := none, error_message := none }

/-- Client fixture matching the repository test setup. -/
def testClient : HaiBlockClient :=
  { api_url := "https://api.test.haiblock.com", auth_token := "test-token" }

/-- Local filesystem fixture holding one file. -/
def localFiles : List (String × String) := [("docs/test.txt", "test content")]

/-- A 401 response as a server would answer an upload. -/
def resp401 : HttpResponse :=
  { status_code := 401, body := "Unauthorized", jsonBody := none,
    reason := "Unauthorized", url := "https://api.test.haiblock.com/upload" }

/-- A 404 response. -/
def resp404 : HttpResponse :=
  { status_code := 404, body := "Not Found", jsonBody := none,
    reason := "Not Found",
    url := "https://api.test.haiblock.com/content/missing" }

/-- A 500 response whose body is a marker string that appears nowhere in
the transport error message. -/
def resp500 : HttpResponse :=
  { status_code := 500, body := "BODYTEXT123", jsonBody := none,
    reason := "Internal Server Error",
    url := "https://api.test.haiblock.com/analytics" }

/-- A 200 response whose body is the empty JSON object. -/
def resp200EmptyObj : HttpResponse :=
  { status_code := 200, body := "{}", jsonBody := some (Json.obj []),
    reason := "OK", url := "https://api.test.haiblock.com/content" }

/-- A 200 response whose body is not valid JSON. -/
def resp200NoJson : HttpResponse :=
  { status_code := 200, body := "all done", jsonBody := none,
    reason := "OK", url := "https://api.test.haiblock.com/content/c1" }

/-- A 200 response carrying the Content fixture payload. -/
def resp200Content : HttpResponse :=
  { status_code := 200, body := "omitted",
    jsonBody := some (Json.obj (contentPayload "uploaded")),
    reason := "OK", url := "https://api.test.haiblock.com/upload" }

theorem except_bind_error {α β : Type} (e : PyError)
    (f : α → Except PyError β) :
    Except.bind (Except.error e) f = Except.error e := rfl

theorem except_bind_ok {α β : Type} (a : α) (f : α → Except PyError β) :
    Except.bind (Except.ok a) f = f a := rfl

theorem except_map_error {α β : Type} (e : PyError) (f : α → β) :
    Except.map f (Except.error e : Except PyError α) = Except.error e := rfl

theorem except_map_ok {α β : Type} (a : α) (f : α → β) :
    Except.map f (Except.ok a : Except PyError α) = Except.ok (f a) := rfl

theorem mapM_loop_decBoolEntry (m : List (String × Bool))
    (acc : List (String × Bool)) :
    List.mapM.loop decBoolEntry (m.map (fun p => (p.fst, Json.bool p.snd))) acc =
      .ok (acc.reverse ++ m) := by
  induction m generalizing acc with
  | nil => simp [List.mapM.loop]; rfl
  | cons hd tl ih => simp [List.mapM.loop, decBoolEntry, ih]; rfl

theorem mapM_loop_decIntEntry (m : List (String × Int))
    (acc : List (String × Int)) :
    List.mapM.loop decIntEntry (m.map (fun p => (p.fst, Json.int p.snd))) acc =
      .ok (acc.reverse ++ m) := by
  induction m generalizing acc with
  | nil => simp [List.mapM.loop]; rfl
  | cons hd tl ih => simp [List.mapM.loop, decIntEntry, ih]; rfl

theorem mapM_loop_decStrElem (xs : List String) (acc : List String) :
    List.mapM.loop decStrElem (xs.map Json.str) acc = .ok (acc.reverse ++ xs) := by
  induction xs generalizing acc with
  | nil => simp [List.mapM.loop]; rfl
  | cons hd tl ih => simp [List.mapM.loop, decStrElem, ih]; rfl

theorem mapM_loop_decObjElem (xs : List (List (String × Json)))
    (acc : List (List (String × Json))) :
    List.mapM.loop decObjElem (xs.map Json.obj) acc = .ok (acc.reverse ++ xs) := by
  induction xs generalizing acc with
  | nil => simp [List.mapM.loop]; rfl
  | cons hd tl ih => simp [List.mapM.loop, decObjElem, ih]; rfl

set_option maxHeartbeats 1000000 in
theorem content_roundtrip (c : Content) :
    decodeContent (encodeContent c) = .ok c := by
  obtain ⟨i, u, f, o, tt, ud, lu, st, fs, ft, s3, um, vc, uc, afs⟩ := c
  cases vc with
  | none => cases tt <;> cases um <;> cases uc <;> cases afs <;> rfl
  | some m =>
      cases tt <;> cases um <;> cases uc <;> cases afs <;>
        · simp [decodeContent, encodeContent, reqStr, reqInt, optStr, optInt,
            optObj, optBoolMap, getField, encOptStr, encOptInt, encOptObj,
            encOptBoolMap, mapM_loop_decBoolEntry]
          rfl

theorem submission_roundtrip (s : Submission) :
    decodeSubmission (encodeSubmission s) = .ok s := by
  obtain ⟨i, ci, pr, st, sa, rd, ce, em⟩ := s
  cases rd <;> cases ce <;> cases em <;> rfl

set_option maxHeartbeats 1000000 in
theorem transformation_roundtrip (t : TransformationResult) :
    decodeTransformationResult (encodeTransformationResult t) = .ok t := by
  obtain ⟨su, tt, ch, ci, fq, er⟩ := t
  cases ch with
  | none =>
      cases fq with
      | none => cases tt <;> cases ci <;> cases er <;> rfl
      | some l =>
          cases tt <;> cases ci <;> cases er <;>
            · simp [decodeTransformationResult, encodeTransformationResult,
                reqBool, optStr, optObj, optStrList, optObjList, getField,
                encOptStr, encOptObj, encOptStrList, encOptObjList,
                mapM_loop_decObjElem]
              rfl
  | some xs =>
      cases fq with
      | none =>
          cases tt <;> cases ci <;> cases er <;>
            · simp [decodeTransformationResult, encodeTransformationResult,
                reqBool, optStr, optObj, optStrList, optObjList, getField,
                encOptStr, encOptObj, encOptStrList, encOptObjList,
                mapM_loop_decStrElem]
              rfl
      | some l =>
          cases tt <;> cases ci <;> cases er <;>
            · simp [decodeTransformationResult, encodeTransformationResult,
                reqBool, optStr, optObj, optStrList, optObjList, getField,
                encOptStr, encOptObj, encOptStrList, encOptObjList,
                mapM_loop_decStrElem, mapM_loop_decObjElem]
              rfl

set_option maxHeartbeats 1000000 in
theorem analytics_roundtrip (a : AnalyticsData) :
    decodeAnalyticsData (encodeAnalyticsData a) = .ok a := by
  obtain ⟨tc, ts, ss, fsm, tcs, ra, csb, spb, mt, acps, sr⟩ := a
  simp [decodeAnalyticsData, encodeAnalyticsData, reqInt, reqFloat,
    reqObj, reqObjList, reqIntMap, getField, encObjList, encIntMap,
    mapM_loop_decObjElem, mapM_loop_decIntEntry]
  rfl

/-- Claim C8: for every valid JSON payload matching an entity schema
(Content, Submission, TransformationResult, AnalyticsData), decoding then
re-encoding round-trips: decoding the serialization of any entity value
recovers that value field for field. -/
theorem decode_encode_roundtrip :
    (∀ c : Content, decodeContent (encodeContent c) = .ok c) ∧
    (∀ s : Submission, decodeSubmission (encodeSubmission s) = .ok s) ∧
    (∀ t : TransformationResult,
      decodeTransformationResult (encodeTransformationResult t) = .ok t) ∧
    (∀ a : AnalyticsData, decodeAnalyticsData (encodeAnalyticsData a) = .ok a) :=
  ⟨content_roundtrip, submission_roundtrip, transformation_roundtrip,
   analytics_roundtrip⟩

/-- Claim C10: constructing HaiBlockClient with auth_token equal to the
empty string and no HAIBLOCK_AUTH_TOKEN environment value raises
AuthenticationError, an empty-string token being treated as an absent
one; consequently every successfully constructed client holds a
non-empty token. -/
theorem empty_token_treated_as_absent :
    (∀ u e : Option String,
      clientInit u (some "") e none =
        .error (.authenticationError
          "Auth token is required. Set HAIBLOCK_AUTH_TOKEN environment variable or pass auth_token parameter.")) ∧
    (∀ u t e envt c, clientInit u t e envt = .ok c → c.auth_token ≠ "") := by
  constructor
  · intro u e
    rfl
  · intro u t e envt c h
    simp only [clientInit] at h
    by_cases hf : pyFalsy (pyOr t envt)
    · simp [hf] at h
    · simp [hf] at h
      cases hpt : pyOr t envt with
      | none => rw [hpt] at hf; simp [pyFalsy] at hf
      | some s =>
          rw [hpt] at hf h
          rw [← h]
          simp [pyFalsy] at hf
          intro heq
          have heq2 : s = "" := heq
          rw [heq2] at hf
          exact absurd hf (by decide)

theorem empty_token_treated_as_absent_witness :
    clientInit none (some "") none none =
      .error (.authenticationError
        "Auth token is required. Set HAIBLOCK_AUTH_TOKEN environment variable or pass auth_token parameter.") ∧
    ({ api_url := "https://api.haiblock.com", auth_token := "test-token" } : HaiBlockClient).auth_token ≠ "" :=
  ⟨empty_token_treated_as_absent.1 none none,
   empty_token_treated_as_absent.2 none (some "test-token") none none
     { api_url := "https://api.haiblock.com", auth_token := "test-token" } rfl⟩

/-- Claim C7: a 404 response to an operation routed through
_make_request, get_content among them, raises ContentNotFoundError. -/
theorem status_404_content_not_found (r : HttpResponse)
    (h : r.status_code = 404) :
    make_request (some r) =
      .error (.contentNotFoundError "Requested resource not found") ∧
    get_content (some r) =
      .error (.contentNotFoundError "Requested resource not found") := by
  have hm : make_request (some r) =
      .error (.contentNotFoundError "Requested resource not found") := by
    simp [make_request, h]
  exact ⟨hm, by simp [get_content, hm, except_bind_error]⟩

/-- Witness for claim C7 at a concrete 404 response. -/
theorem status_404_content_not_found_witness :
    make_request (some resp404) =
      .error (.contentNotFoundError "Requested resource not found") ∧
    get_content (some resp404) =
      .error (.contentNotFoundError "Requested resource not found") :=
  status_404_content_not_found resp404 rfl

/-- Claim C5: when the 2xx response body is a JSON object with no items
key, list_content and list_submissions return the empty list rather
than failing. -/
theorem list_missing_items_returns_empty (r : HttpResponse)
    (fields : List (String × Json))
    (h2 : 200 ≤ r.status_code) (h3 : r.status_code < 300)
    (hb : r.jsonBody = some (Json.obj fields))
    (hi : getField fields "items" = none) :
    list_content (some r) = .ok [] ∧ list_submissions (some r) = .ok [] := by
  have hcond : ¬(400 ≤ r.status_code ∧ r.status_code < 600) := by omega
  have hm : make_request (some r) = .ok (Json.obj fields) := by
    simp [make_request, hcond, hb]
  constructor
  · simp [list_content, hm, except_bind_ok, hi]
  · simp [list_submissions, hm, except_bind_ok, hi]

/-- Witness for claim C5 at a concrete 200 response with body the empty
JSON object. -/
theorem list_missing_items_returns_empty_witness :
    list_content (some resp200EmptyObj) = .ok [] ∧
    list_submissions (some resp200EmptyObj) = .ok [] :=
  list_missing_items_returns_empty resp200EmptyObj []
    (by decide) (by decide) rfl rfl

/-- Counterexample to claim C1: decoding a Content payload and a
Submission payload whose status field holds a value outside the documented
enums succeeds and constructs the entity with the unrecognized value,
instead of failing with a ValidationError-class fault. -/
theorem unknown_status_constructs_entity :
    decodeContent (contentPayload "bogus-status") = .ok (contentOf "bogus-status") ∧
    decodeSubmission (submissionPayload "bogus-status") =
      .ok (submissionOf "bogus-status") :=
  ⟨rfl, rfl⟩

/-- Claim C1 as amended: the Content and Submission decoders type the
status field as a plain string and do not check enum membership, so a
well-typed payload with any status string whatsoever decodes successfully
to the entity carrying that string (the repository test suite itself
asserts a Content with status outside the documented enum decodes). -/
theorem status_accepts_any_string (s : String) :
    decodeContent (contentPayload s) = .ok (contentOf s) ∧
    decodeSubmission (submissionPayload s) = .ok (submissionOf s) :=
  ⟨rfl, rfl⟩

/-- Claim C4: constructing HaiBlockClient with no auth_token argument and
no HAIBLOCK_AUTH_TOKEN environment value always fails with
AuthenticationError, whatever the api_url argument and environment hold;
the constructor takes no network input, so the failure precedes any
network call. -/
theorem init_without_token_fails (api_url env_api_url : Option String) :
    clientInit api_url none env_api_url none =
      .error (.authenticationError
        "Auth token is required. Set HAIBLOCK_AUTH_TOKEN environment variable or pass auth_token parameter.") :=
  rfl

/-- Counterexample to claim C2: upload_file does not route its POST
through _make_request; on a 401 response it raises APIError (carrying
status 401), not AuthenticationError, at this concrete upload. -/
theorem upload_401_raises_apiError :
    (upload_file testClient localFiles "docs/test.txt" none (some resp401)).result =
      .error (.apiError ("Upload failed: " ++ resp401.body) (some 401) (some resp401)) :=
  rfl

/-- Claim C2 as amended: a 401 response to every operation routed
through _make_request raises AuthenticationError, but upload_file, which
posts directly and only distinguishes 200 from the rest, raises APIError
carrying status 401 on a 401 response. -/
theorem status_401_yields_authentication_error (r : HttpResponse)
    (h : r.status_code = 401) :
    make_request (some r) =
      .error (.authenticationError "Invalid or expired authentication token") ∧
    get_content (some r) =
      .error (.authenticationError "Invalid or expired authentication token") ∧
    list_content (some r) =
      .error (.authenticationError "Invalid or expired authentication token") ∧
    transform_content (some r) =
      .error (.authenticationError "Invalid or expired authentication token") ∧
    submit_to_model (some r) =
      .error (.authenticationError "Invalid or expired authentication token") ∧
    get_submission (some r) =
      .error (.authenticationError "Invalid or expired authentication token") ∧
    list_submissions (some r) =
      .error (.authenticationError "Invalid or expired authentication token") ∧
    get_analytics (some r) =
      .error (.authenticationError "Invalid or expired authentication token") ∧
    delete_content (some r) =
      .error (.authenticationError "Invalid or expired authentication token") ∧
    (∀ c fs p meta bytes, readFileQ fs p = some bytes →
      (upload_file c fs p meta (some r)).result =
        .error (.apiError ("Upload failed: " ++ r.body) (some 401) (some r))) := by
  have hm : make_request (some r) =
      .error (.authenticationError "Invalid or expired authentication token") := by
    simp [make_request, h]
  refine ⟨hm, ?_, ?_, ?_, ?_, ?_, ?_, ?_, ?_, ?_⟩
  · simp [get_content, hm, except_bind_error]
  · simp [list_content, hm, except_bind_error]
  · simp [transform_content, hm, except_bind_error]
  · simp [submit_to_model, hm, except_bind_error]
  · simp [get_submission, hm, except_bind_error]
  · simp [list_submissions, hm, except_bind_error]
  · simp [get_analytics, hm, except_bind_error]
  · simp [delete_content, hm, except_map_error]
  · intro c fs p meta bytes hf
    simp [upload_file, hf, h]

/-- Witness for the amended claim C2 at a concrete 401 response, on the
transport shared by all _make_request operations and on upload_file. -/
theorem status_401_yields_authentication_error_witness :
    make_request (some resp401) =
      .error (.authenticationError "Invalid or expired authentication token") ∧
    (upload_file testClient localFiles "docs/test.txt" none (some resp401)).result =
      .error (.apiError ("Upload failed: " ++ resp401.body) (some 401) (some resp401)) :=
  ⟨(status_401_yields_authentication_error resp401 rfl).1,
   (status_401_yields_authentication_error resp401 rfl).2.2.2.2.2.2.2.2.2
     testClient localFiles "docs/test.txt" none "test content" rfl⟩

/-- Counterexample to claim C3: at this concrete 500 response the raised
APIError does carry status 500, but its message is the HTTPError text
built from status, reason and URL, and the response body text does not
occur in it. -/
theorem status_500_message_lacks_body :
    make_request (some resp500) =
      .error (.apiError
        ("API request failed: " ++ httpErrorMessage 500 resp500.reason resp500.url)
        (some 500) (some resp500)) ∧
    containsSubstr
      ("API request failed: " ++ httpErrorMessage 500 resp500.reason resp500.url)
      resp500.body = false :=
  ⟨rfl, by decide⟩

/-- Claim C3 as amended: a 500 response to a request routed through
_make_request raises an APIError whose carried status_code equals 500 and
which carries the raw response object (the body is accessible from the
error), while its message is the transport HTTPError description, which
does not embed the response body text. -/
theorem status_500_apiError_carries_status (r : HttpResponse)
    (h : r.status_code = 500) :
    make_request (some r) =
      .error (.apiError
        ("API request failed: " ++ httpErrorMessage 500 r.reason r.url)
        (some 500) (some r)) := by
  simp [make_request, h]

/-- Witness for the amended claim C3 at a concrete 500 response. -/
theorem status_500_apiError_carries_status_witness :
    make_request (some resp500) =
      .error (.apiError
        ("API request failed: " ++ httpErrorMessage 500 resp500.reason resp500.url)
        (some 500) (some resp500)) :=
  status_500_apiError_carries_status resp500 rfl

/-- Claim C6: upload_file on a path absent from the local filesystem
raises FileNotFoundError and issues no network request; on a present path
it posts the file content as multipart form data (no JSON content-type)
to the upload endpoint and returns the decoded Content when the response
has status 200 and a body decoding to a Content. -/
theorem upload_file_contract (c : HaiBlockClient) (fs : List (String × String))
    (p : String) (meta : Option (List (String × Json)))
    (resp : Option HttpResponse) :
    (readFileQ fs p = none →
      upload_file c fs p meta resp =
        { result := .error (.fileNotFoundError ("File not found: " ++ p)),
          request := none }) ∧
    (∀ bytes r j content, readFileQ fs p = some bytes → resp = some r →
      r.status_code = 200 → r.jsonBody = some j →
      decodeAs decodeContent j = .ok content →
      upload_file c fs p meta resp =
        { result := .ok content,
          request := some { url := c.api_url ++ "/upload",
                            fileName := basename p, fileContent := bytes,
                            dataMetadata := formMetadata meta,
                            hasJsonContentType := false } }) := by
  constructor
  · intro h
    simp [upload_file, h]
  · intro bytes r j content h1 h2 h3 h4 h5
    subst h2
    simp [upload_file, h1, h3, h4, h5]

/-- Witness for claim C6: a missing path raises with no request issued,
and a present path with a 200 fixture response returns the decoded
Content with the multipart request recorded. -/
theorem upload_file_contract_witness :
    upload_file testClient localFiles "missing.txt" none none =
      { result := .error (.fileNotFoundError "File not found: missing.txt"),
        request := none } ∧
    upload_file testClient localFiles "docs/test.txt" none (some resp200Content) =
      { result := .ok (contentOf "uploaded"),
        request := some { url := testClient.api_url ++ "/upload",
                          fileName := basename "docs/test.txt",
                          fileContent := "test content",
                          dataMetadata := formMetadata none,
                          hasJsonContentType := false } } :=
  ⟨(upload_file_contract testClient localFiles "missing.txt" none none).1 rfl,
   (upload_file_contract testClient localFiles "docs/test.txt" none
       (some resp200Content)).2 "test content" resp200Content
     (Json.obj (contentPayload "uploaded")) (contentOf "uploaded")
     rfl rfl rfl rfl rfl⟩

/-- Counterexample to claim C9: the body of a successful (2xx) delete is
inspected. Two 200 responses differing only in body yield different
outcomes: a parseable body returns True, an unparseable one raises
APIError from the response.json() call inside _make_request. -/
theorem delete_body_inspected :
    delete_content (some resp200EmptyObj) = .ok true ∧
    delete_content (some resp200NoJson) =
      .error (.apiError ("Request failed: " ++ jsonDecodeErrorMessage) none none) :=
  ⟨rfl, rfl⟩

/-- Claim C9 as amended: delete_content never returns False: every path
raises a typed error or returns True, and a 2xx response whose body
parses as JSON returns True with the parsed value discarded; but the body
of a successful delete is parsed by _make_request, so a 2xx response with
an unparseable body raises APIError instead of returning True. -/
theorem delete_never_false_but_parses_body :
    (∀ resp, delete_content resp ≠ .ok false) ∧
    (∀ r j, 200 ≤ r.status_code → r.status_code < 300 →
      r.jsonBody = some j → delete_content (some r) = .ok true) ∧
    (∀ r, 200 ≤ r.status_code → r.status_code < 300 → r.jsonBody = none →
      delete_content (some r) =
        .error (.apiError ("Request failed: " ++ jsonDecodeErrorMessage) none none)) := by
  refine ⟨?_, ?_, ?_⟩
  · intro resp
    cases hm : make_request resp with
    | error e => simp [delete_content, hm, except_map_error]
    | ok j => simp [delete_content, hm, except_map_ok]
  · intro r j h2 h3 hb
    have hcond : ¬(400 ≤ r.status_code ∧ r.status_code < 600) := by omega
    simp [delete_content, make_request, hcond, hb, except_map_ok]
  · intro r h2 h3 hb
    have hcond : ¬(400 ≤ r.status_code ∧ r.status_code < 600) := by omega
    simp [delete_content, make_request, hcond, hb, except_map_error]

/-- Witness for the amended claim C9 on a network failure and the two
concrete 200 responses. -/
theorem delete_never_false_but_parses_body_witness :
    delete_content none ≠ .ok false ∧
    delete_content (some resp200EmptyObj) = .ok true ∧
    delete_content (some resp200NoJson) =
      .error (.apiError ("Request failed: " ++ jsonDecodeErrorMessage) none none) :=
  ⟨delete_never_false_but_parses_body.1 none,
   delete_never_false_but_parses_body.2.1 resp200EmptyObj (Json.obj [])
     (by decide) (by decide) rfl,
   delete_never_false_but_parses_body.2.2 resp200NoJson
     (by decide) (by decide) rfl⟩
